import Mathlib

/-!
Verification development for the dheu-agent repository.

The repository implements three LangGraph pipelines (tweet workflow in
src/agent/agent.py, Facebook workflow in src/agent/agent_fb.py, weekly
summary workflow in src/agent/summary_agent.py) and a letter generator
(src/letters/marine-ai.py).  Each pipeline threads a typed state dict
through a fixed linear sequence of nodes; each node returns a partial
state update that LangGraph merges (last-write-wins per key) into the
running state.

Shallow embedding conventions:
- A Python `str` field of a state dict is modelled as `Option String`,
  where `none` means the key is absent from the dict (so `state.get(k)`
  is the identity and `state[k]` raises KeyError exactly on `none`).
  The code never stores a present-`None` string value through the
  entry points, so two-valued presence is faithful.
- External effectful calls are oracles passed as parameters:
  `llm : String → Except String String` is the generation service
  (`.error` = the call raised), `send : String → Except String Unit`
  is the platform delivery call, `db : Except String Unit` is the
  outcome of one INSERT+commit on the SQLite connection.
- Each node returns, besides its state update, its effect trace:
  the list of prompts sent to the generation service, the list of
  delivery attempts, and the list of rows durably appended.
- Timestamps are `Nat` (seconds).  `datetime.isoformat()` strings of a
  single process compare lexicographically exactly as the instants
  compare, so the SQL comparison `post_datetime >= ?` is modelled by
  `≤` on `Nat`.
- Python `str.strip()` is modelled by `pyStrip` (drop whitespace from
  both ends), `str.lower()` by `pyLower`, `str.title()` by `pyTitle`.
-/

/-- Python `str.strip()`: drop whitespace characters from both ends. -/
def pyStrip (s : String) : String :=
  ⟨((s.data.dropWhile Char.isWhitespace).reverse.dropWhile Char.isWhitespace).reverse⟩

/-- Python `str.lower()` (ASCII-adequate model). -/
def pyLower (s : String) : String := ⟨s.data.map Char.toLower⟩

/-- Helper for `pyTitle`: the Bool records whether the previous character
was alphabetic. -/
def titleMap : Bool → List Char → List Char
  | _, [] => []
  | prevAlpha, c :: cs =>
    if c.isAlpha then
      (if prevAlpha then c.toLower else c.toUpper) :: titleMap true cs
    else
      c :: titleMap false cs

/-- Python `str.title()` (ASCII-adequate model): uppercase the first
letter of every alphabetic run, lowercase the rest. -/
def pyTitle (s : String) : String := ⟨titleMap false s.data⟩

/-- Python truthiness of an optional string field read with
`state.get(key)`: `None` and the empty string are falsy. -/
def truthy : Option String → Bool
  | none => false
  | some s => !(s == "")

/-- Python `"\n".join(items)`. -/
def joinLines : List String → String
  | [] => ""
  | [x] => x
  | x :: y :: ys => x ++ "\n" ++ joinLines (y :: ys)

/-! ## Tweet workflow (src/agent/agent.py) -/

/-- `OceanTweetState` from agent.py: keys `data` and `tweet`;
`none` models an absent key. -/
structure TweetState where
  data : Option String
  tweet : Option String
deriving DecidableEq

/-- A partial state update returned by a node (a Python dict that may or
may not contain each key); `none` means the key is not in the update. -/
structure TweetUpdate where
  data : Option String := none
  tweet : Option String := none
deriving DecidableEq

/-- The empty update: returning `None` or a literal empty dict from a
LangGraph node leaves the state unchanged. -/
def noTweetUpdate : TweetUpdate := {}

/-- Merge a key of a partial update into the state
(last-write-wins, as LangGraph merges node outputs). -/
def mergeField : Option String → Option String → Option String
  | some v, _ => some v
  | none, old => old

/-- Apply a node's partial update to the tweet-workflow state. -/
def applyTweetUpdate (s : TweetState) (u : TweetUpdate) : TweetState :=
  { data := mergeField u.data s.data, tweet := mergeField u.tweet s.tweet }

/-- The fixed leading part of the `generate_tweet` prompt f-string
(agent.py lines 62-63). -/
def oceanTweetPromptHeader : String :=
  "You are the **ocean** and you have to generate a tweet about your current condition based on the images captured by satellite and data analyzed by a machine learning model. **Only generate the tweet pretending to be the ocean and don\x27t generate anything else.** Use hashtags if needed.\n    Data: "

/-- The prompt f-string built by `generate_tweet` (agent.py line 62):
the fixed header followed by the interpolated `state['data']`. -/
def oceanTweetPrompt (d : String) : String := oceanTweetPromptHeader ++ d

/-- The sentinel returned by `generate_tweet` when `state.get('data')`
is falsy. -/
def sentinelNoData : String := "Error: No data to generate tweet."

/-- `generate_tweet` (agent.py lines 59-68).  The prompt f-string reads
`state['data']`, which raises KeyError when the key is absent — before
the truthiness check on line 66 runs.  Returns the node's result
(`.error` = an uncaught exception propagates) paired with the list of
prompts sent to the generation service. -/
def generate_tweet (s : TweetState) (llm : String → Except String String) :
    Except String TweetUpdate × List String :=
  match s.data with
  | none => (.error "KeyError: \x27data\x27", [])
  | some d =>
    let prompt := oceanTweetPrompt d
    if d = "" then (.ok { tweet := some sentinelNoData }, [])
    else
      match llm prompt with
      | .ok out => (.ok { tweet := some (pyStrip out) }, [prompt])
      | .error e => (.error e, [prompt])

/-- The publish outcomes named in the specification. -/
inductive PublishOutcome where
  | Delivered
  | Skipped
  | Failed (reason : String)
deriving DecidableEq

/-- `post_tweet` (agent.py lines 70-83): guarded by
`if client and tweet_content:`, one `create_tweet` attempt inside
`try/except`, every exception caught, and the node returns `None`
(no state update) on every path.  Result: outcome, state update,
and the list of delivery attempts. -/
def post_tweet (s : TweetState) (client : Bool) (send : String → Except String Unit) :
    PublishOutcome × TweetUpdate × List String :=
  match s.tweet with
  | none => (.Skipped, noTweetUpdate, [])
  | some t =>
    if client && !(t == "") then
      match send t with
      | .ok _ => (.Delivered, noTweetUpdate, [t])
      | .error e => (.Failed e, noTweetUpdate, [t])
    else (.Skipped, noTweetUpdate, [])

/-- One row of the `tweets_log` table.  `dataSummary` is the nullable
`data_summary` column. -/
structure TweetLogRecord where
  content : String
  timestamp : Nat
  dataSummary : Option String
deriving DecidableEq

/-- `log_tweet` (agent.py lines 85-103): reads `state.get('tweet')`
and `state.get('data', 'No data provided')`; appends one row iff the
tweet is truthy and the INSERT+commit does not raise (the exception is
caught); always returns the empty update. -/
def log_tweet (s : TweetState) (now : Nat) (db : Except String Unit) :
    TweetUpdate × List TweetLogRecord :=
  match s.tweet with
  | none => (noTweetUpdate, [])
  | some t =>
    if t = "" then (noTweetUpdate, [])
    else
      match db with
      | .ok _ => (noTweetUpdate, [{ content := t, timestamp := now,
                                    dataSummary := some (s.data.getD "No data provided") }])
      | .error _ => (noTweetUpdate, [])

/-- The environment of one tweet-workflow run: the generation service,
the Tweepy client (present or `None` after a failed init), the delivery
call, the database outcome and the wall clock. -/
structure TweetEnv where
  llm : String → Except String String
  client : Bool
  send : String → Except String Unit
  db : Except String Unit
  now : Nat

/-- Everything observable about one finished tweet-workflow run. -/
structure TweetRunResult where
  afterGenerate : TweetState
  afterPublish : TweetState
  finalState : TweetState
  outcome : PublishOutcome
  llmCalls : List String
  sendAttempts : List String
  appended : List TweetLogRecord
  trace : List String
deriving DecidableEq

/-- The publish and log steps of the tweet pipeline, run after the
generation step produced update `u1` with service calls `calls`. -/
def tweetStepsAfterGenerate (env : TweetEnv) (s0 : TweetState) (u1 : TweetUpdate)
    (calls : List String) : TweetRunResult :=
  let s1 := applyTweetUpdate s0 u1
  let pr := post_tweet s1 env.client env.send
  let s2 := applyTweetUpdate s1 pr.2.1
  let lg := log_tweet s2 env.now env.db
  let s3 := applyTweetUpdate s2 lg.1
  { afterGenerate := s1, afterPublish := s2, finalState := s3,
    outcome := pr.1, llmCalls := calls, sendAttempts := pr.2.2,
    appended := lg.2,
    trace := ["generate_tweet", "post_tweet", "log_tweet"] }

/-- `run_ocean_tweet_workflow` (agent.py lines 124-138): initial state
`{'data': satellite_data, 'tweet': None}`, then the compiled graph
runs generate → post → log.  An uncaught exception in the generation
step aborts the run (`.error`). -/
def run_ocean_tweet_workflow (env : TweetEnv) (satellite_data : String) :
    Except String TweetRunResult :=
  let s0 : TweetState := { data := some satellite_data, tweet := none }
  match generate_tweet s0 env.llm with
  | (.error e, _) => .error e
  | (.ok u1, calls) => .ok (tweetStepsAfterGenerate env s0 u1 calls)

/-! ## Graph wiring -/

/-- The edges added to the tweet `StateGraph` (agent.py lines 112-117);
`__start__` and `__end__` are LangGraph's START and END. -/
def oceanGraphEdges : List (String × String) :=
  [("__start__", "generate_tweet"),
   ("generate_tweet", "post_tweet"),
   ("post_tweet", "log_tweet"),
   ("log_tweet", "__end__")]

/-- The unique successor of a node in an edge list. -/
def nextNode (edges : List (String × String)) (n : String) : Option String :=
  (edges.find? (fun e => e.1 == n)).map (fun e => e.2)

/-- The sequence of nodes reached by following the (unique) outgoing
edges from `n`, stopping at `__end__`; `fuel` bounds the walk. -/
def pathFrom (edges : List (String × String)) : Nat → String → List String
  | 0, _ => []
  | fuel + 1, n =>
    match nextNode edges n with
    | none => []
    | some m => if m == "__end__" then [] else m :: pathFrom edges fuel m

/-! ## Facebook workflow (src/agent/agent_fb.py) -/

/-- `OceanPostState` from agent_fb.py: keys `event`, `coordinates`,
`post`; `none` models an absent key. -/
structure FBState where
  event : Option String
  coordinates : Option String
  post : Option String
deriving DecidableEq

/-- A partial state update of the Facebook workflow. -/
structure FBUpdate where
  event : Option String := none
  coordinates : Option String := none
  post : Option String := none
deriving DecidableEq

/-- The empty update of the Facebook workflow. -/
def noFBUpdate : FBUpdate := {}

/-- Apply a node's partial update to the Facebook-workflow state. -/
def applyFBUpdate (s : FBState) (u : FBUpdate) : FBState :=
  { event := mergeField u.event s.event,
    coordinates := mergeField u.coordinates s.coordinates,
    post := mergeField u.post s.post }

/-- The prompt f-string built by `generate_post` (agent_fb.py lines 44-49). -/
def fbPrompt (e c : String) : String :=
  "\n    You are the **ocean**. Generate a Facebook post about your current condition \n    based on satellite imagery and ML analysis. Pretend to be the ocean. Use hashtags if needed.\n    Event: " ++ e ++ "\n    Coordinates: " ++ c ++ "\n    "

/-- `generate_post` (agent_fb.py lines 43-52): no emptiness validation —
the prompt embeds `state['event']` and `state['coordinates']` (KeyError
when a key is absent) and the generation service is always invoked
exactly once otherwise.  A service exception is not caught. -/
def generate_post (s : FBState) (llm : String → Except String String) :
    Except String FBUpdate × List String :=
  match s.event with
  | none => (.error "KeyError: \x27event\x27", [])
  | some e =>
    match s.coordinates with
    | none => (.error "KeyError: \x27coordinates\x27", [])
    | some c =>
      let prompt := fbPrompt e c
      match llm prompt with
      | .ok out => (.ok { post := some (pyStrip out) }, [prompt])
      | .error err => (.error err, [prompt])

/-- `post_facebook_node` (agent_fb.py lines 55-63): guarded only by the
truthiness of `state.get('post')` (the GraphAPI client is constructed
unconditionally at module load, so there is no client check), one
`put_object` attempt inside `try/except`, every exception caught,
returns the empty dict. -/
def post_facebook_node (s : FBState) (send : String → Except String Unit) :
    PublishOutcome × FBUpdate × List String :=
  match s.post with
  | none => (.Skipped, noFBUpdate, [])
  | some p =>
    if !(p == "") then
      match send p with
      | .ok _ => (.Delivered, noFBUpdate, [p])
      | .error e => (.Failed e, noFBUpdate, [p])
    else (.Skipped, noFBUpdate, [])

/-- One row of the `posts_log` table; `event` and `coordinates` are the
nullable columns of agent_fb.py. -/
structure PostLogRecord where
  content : String
  timestamp : Nat
  event : Option String
  coordinates : Option String
deriving DecidableEq

/-- `log_post` (agent_fb.py lines 66-79): appends one row iff the post
is truthy and the INSERT+commit does not raise; it writes
`state.get('event')` and `state.get('coordinates')` directly (possibly
`None`); always returns the empty dict. -/
def log_post (s : FBState) (now : Nat) (db : Except String Unit) :
    FBUpdate × List PostLogRecord :=
  match s.post with
  | none => (noFBUpdate, [])
  | some p =>
    if p = "" then (noFBUpdate, [])
    else
      match db with
      | .ok _ => (noFBUpdate, [{ content := p, timestamp := now,
                                 event := s.event, coordinates := s.coordinates }])
      | .error _ => (noFBUpdate, [])

/-- The environment of one Facebook-workflow run. -/
structure FBEnv where
  llm : String → Except String String
  send : String → Except String Unit
  db : Except String Unit
  now : Nat

/-- Everything observable about one finished Facebook-workflow run. -/
structure FBRunResult where
  afterGenerate : FBState
  afterPublish : FBState
  finalState : FBState
  outcome : PublishOutcome
  llmCalls : List String
  sendAttempts : List String
  appended : List PostLogRecord
  trace : List String
deriving DecidableEq

/-- The publish and log steps of the Facebook pipeline, run after the
generation step produced update `u1` with service calls `calls`. -/
def fbStepsAfterGenerate (env : FBEnv) (s0 : FBState) (u1 : FBUpdate)
    (calls : List String) : FBRunResult :=
  let s1 := applyFBUpdate s0 u1
  let pr := post_facebook_node s1 env.send
  let s2 := applyFBUpdate s1 pr.2.1
  let lg := log_post s2 env.now env.db
  let s3 := applyFBUpdate s2 lg.1
  { afterGenerate := s1, afterPublish := s2, finalState := s3,
    outcome := pr.1, llmCalls := calls, sendAttempts := pr.2.2,
    appended := lg.2,
    trace := ["generate_post", "post_facebook", "log_post"] }

/-- `post_update` (agent_fb.py lines 95-101): initial state
`{'event': event, 'coordinates': coordinates, 'post': None}`, then the
compiled graph runs generate → post → log. -/
def run_post_update (env : FBEnv) (event coordinates : String) :
    Except String FBRunResult :=
  let s0 : FBState := { event := some event, coordinates := some coordinates, post := none }
  match generate_post s0 env.llm with
  | (.error e, _) => .error e
  | (.ok u1, calls) => .ok (fbStepsAfterGenerate env s0 u1 calls)

/-- The edges added to the Facebook `StateGraph` (agent_fb.py lines 87-90). -/
def fbGraphEdges : List (String × String) :=
  [("__start__", "generate_post"),
   ("generate_post", "post_facebook"),
   ("post_facebook", "log_post"),
   ("log_post", "__end__")]

/-! ## Log store (the `tweets_log` table of agent.py, queried by
summary_agent.py) -/

/-- `ORDER BY post_datetime DESC`: an earlier list position holds a
record whose timestamp is at least the later one. -/
def newestFirst (a b : TweetLogRecord) : Prop := b.timestamp ≤ a.timestamp

instance : DecidableRel newestFirst := fun a b =>
  inferInstanceAs (Decidable (b.timestamp ≤ a.timestamp))

instance : IsTotal TweetLogRecord newestFirst :=
  ⟨fun a b => Or.symm (Nat.le_total a.timestamp b.timestamp)⟩

instance : IsTrans TweetLogRecord newestFirst :=
  ⟨fun _ _ _ hab hbc => Nat.le_trans hbc hab⟩

/-- The SELECT of `retrieve_weekly_tweets` (summary_agent.py lines
44-49): `WHERE post_datetime >= since ORDER BY post_datetime DESC`. -/
def query (since : Nat) (store : List TweetLogRecord) : List TweetLogRecord :=
  List.insertionSort newestFirst (store.filter (fun r => decide (since ≤ r.timestamp)))

/-- The INSERT of `log_tweet`, seen as an operation on the store. -/
def appendRecord (store : List TweetLogRecord) (content : String)
    (summary : Option String) (now : Nat) : List TweetLogRecord :=
  store ++ [{ content := content, timestamp := now, dataSummary := summary }]

/-- `timedelta(days=7)` in seconds. -/
def sevenDaysSecs : Nat := 7 * 86400

/-! ## Weekly summary workflow (src/agent/summary_agent.py) -/

/-- `WeeklySummaryState`: keys `weekly_tweets` and `summary_tweet`. -/
structure SummaryState where
  weekly_tweets : Option (List TweetLogRecord)
  summary_tweet : Option String
deriving DecidableEq

/-- A partial state update of the summary workflow. -/
structure SummaryUpdate where
  weekly_tweets : Option (List TweetLogRecord) := none
  summary_tweet : Option String := none
deriving DecidableEq

/-- The empty update of the summary workflow. -/
def noSummaryUpdate : SummaryUpdate := {}

/-- Merge for the list-valued key. -/
def mergeListField : Option (List TweetLogRecord) → Option (List TweetLogRecord) →
    Option (List TweetLogRecord)
  | some v, _ => some v
  | none, old => old

/-- Apply a node's partial update to the summary-workflow state. -/
def applySummaryUpdate (s : SummaryState) (u : SummaryUpdate) : SummaryState :=
  { weekly_tweets := mergeListField u.weekly_tweets s.weekly_tweets,
    summary_tweet := mergeField u.summary_tweet s.summary_tweet }

/-- `retrieve_weekly_tweets` (summary_agent.py lines 38-62): queries the
store with cutoff `now - 7 days` and writes the rows (as dicts with the
same three fields) into `weekly_tweets`. -/
def retrieve_weekly_tweets (now : Nat) (store : List TweetLogRecord) : SummaryUpdate :=
  { weekly_tweets := some (query (now - sevenDaysSecs) store) }

/-- The fixed fallback message of `generate_summary_tweet`
(summary_agent.py line 70). -/
def fallbackSummary : String :=
  "🌊 This week I\x27ve been quietly observing... No major incidents to report, but I\x27m always here, always watching. #Ocean #WeeklySummary"

/-- The fixed leading part of the weekly-summary prompt
(summary_agent.py lines 75-78). -/
def summaryPromptHeader : String :=
  "You are the **ocean** and you need to create a weekly summary tweet based on all the tweets you posted in the last 7 days. **Only generate the summary tweet pretending to be the ocean and don\x27t generate anything else.** Keep it concise (under 280 characters), reflective, and use hashtags. Make it feel like a weekly reflection from the ocean\x27s perspective.\n\nPrevious tweets this week:\n"

/-- The full weekly-summary prompt: header plus one `- content` line per
retrieved record, joined by newlines. -/
def summaryPrompt (ws : List TweetLogRecord) : String :=
  summaryPromptHeader ++ joinLines (ws.map (fun t => "- " ++ t.content))

/-- `generate_summary_tweet` (summary_agent.py lines 64-82): reads
`state.get('weekly_tweets', [])`; an empty list short-circuits to the
fixed fallback message with no service call; otherwise exactly one
service call on `summaryPrompt`.  A service exception is not caught. -/
def generate_summary_tweet (s : SummaryState) (llm : String → Except String String) :
    Except String SummaryUpdate × List String :=
  let ws := s.weekly_tweets.getD []
  if ws.isEmpty then (.ok { summary_tweet := some fallbackSummary }, [])
  else
    match llm (summaryPrompt ws) with
    | .ok out => (.ok { summary_tweet := some (pyStrip out) }, [summaryPrompt ws])
    | .error e => (.error e, [summaryPrompt ws])

/-- `post_summary_tweet` (summary_agent.py lines 84-96): same shape as
`post_tweet` — guarded by `if client and tweet_content:`, one attempt,
every exception caught, no state update. -/
def post_summary_tweet (s : SummaryState) (client : Bool)
    (send : String → Except String Unit) : PublishOutcome × SummaryUpdate × List String :=
  match s.summary_tweet with
  | none => (.Skipped, noSummaryUpdate, [])
  | some t =>
    if client && !(t == "") then
      match send t with
      | .ok _ => (.Delivered, noSummaryUpdate, [t])
      | .error e => (.Failed e, noSummaryUpdate, [t])
    else (.Skipped, noSummaryUpdate, [])

/-- The environment of one summary-workflow run; `store` is the current
contents of the `tweets_log` table. -/
structure SummaryEnv where
  llm : String → Except String String
  client : Bool
  send : String → Except String Unit
  now : Nat
  store : List TweetLogRecord

/-- Everything observable about one finished summary-workflow run. -/
structure SummaryRunResult where
  afterRetrieve : SummaryState
  afterGenerate : SummaryState
  finalState : SummaryState
  outcome : PublishOutcome
  llmCalls : List String
  sendAttempts : List String
  trace : List String
deriving DecidableEq

/-- The publish step of the summary pipeline, run after retrieval
produced state `s1` and generation produced `u2` with calls `calls`. -/
def summaryStepsAfterGenerate (env : SummaryEnv) (s1 : SummaryState) (u2 : SummaryUpdate)
    (calls : List String) : SummaryRunResult :=
  let s2 := applySummaryUpdate s1 u2
  let pr := post_summary_tweet s2 env.client env.send
  let s3 := applySummaryUpdate s2 pr.2.1
  { afterRetrieve := s1, afterGenerate := s2, finalState := s3,
    outcome := pr.1, llmCalls := calls, sendAttempts := pr.2.2,
    trace := ["retrieve_weekly_tweets", "generate_summary_tweet", "post_summary_tweet"] }

/-- `run_weekly_summary_workflow` (summary_agent.py lines 111-120):
initial state `{'weekly_tweets': [], 'summary_tweet': None}`, then the
compiled graph runs retrieve → generate → post. -/
def run_weekly_summary_workflow (env : SummaryEnv) : Except String SummaryRunResult :=
  let s0 : SummaryState := { weekly_tweets := some [], summary_tweet := none }
  let s1 := applySummaryUpdate s0 (retrieve_weekly_tweets env.now env.store)
  match generate_summary_tweet s1 env.llm with
  | (.error e, _) => .error e
  | (.ok u2, calls) => .ok (summaryStepsAfterGenerate env s1 u2 calls)

/-- The edges added to the summary `StateGraph`
(summary_agent.py lines 104-107). -/
def summaryGraphEdges : List (String × String) :=
  [("__start__", "retrieve_weekly_tweets"),
   ("retrieve_weekly_tweets", "generate_summary_tweet"),
   ("generate_summary_tweet", "post_summary_tweet"),
   ("post_summary_tweet", "__end__")]

/-! ## Letter generator (src/letters/marine-ai.py) -/

/-- `OrganizationProfile` dataclass. -/
structure OrganizationProfile where
  name : String
  target_audience : String
  tone : String
  focus_areas : List String
  call_to_action : String
  contact_info : String
deriving DecidableEq

/-- `MarineHealthData` dataclass.  `current_index` is a Python float
only ever rendered with `:.1f`; it is modelled by its rendered string
`currentIndexStr`, which is all the letter code observes. -/
structure MarineHealthData where
  currentIndexStr : String
  region : String
  coordinates : String
  severity_level : String
  urgency : String
  recent_changes : String
  key_issues : List String
deriving DecidableEq

/-- The `self.organizations` dict (marine-ai.py lines 54-79). -/
def organizations : List (String × OrganizationProfile) :=
  [("policy_makers",
    { name := "Ocean Policy Institute",
      target_audience := "Government Officials, Policy Makers, Environmental Agencies",
      tone := "formal, evidence-based, diplomatic",
      focus_areas := ["policy reform", "international cooperation",
                      "regulatory frameworks", "funding allocation"],
      call_to_action := "implement stronger marine protection policies and increase funding",
      contact_info := "dheunsac@gmail.com" }),
   ("industry_leaders",
    { name := "Sustainable Marine Industries Coalition",
      target_audience := "Corporate Leaders, Manufacturing, Shipping, Energy Companies",
      tone := "business-focused, solution-oriented, collaborative",
      focus_areas := ["sustainable practices", "green technology",
                      "corporate responsibility", "economic benefits"],
      call_to_action := "adopt sustainable practices and invest in clean marine technologies",
      contact_info := "dheunsac@gmail.com" }),
   ("communities",
    { name := "Coastal Communities Alliance",
      target_audience := "Local Communities, Volunteers, Community Leaders, Residents",
      tone := "passionate, community-focused, inspiring",
      focus_areas := ["grassroots action", "local impact",
                      "community engagement", "educational programs"],
      call_to_action := "join local conservation efforts and engage in community marine protection",
      contact_info := "dheunsac@gmail.com" })]

/-- The part of `_fallback_letter` after the organization name
(marine-ai.py lines 174-195).  List indexing `focus_areas[i]` is
total-ized with a `""` default; every profile in `organizations` has
four focus areas, so the default is never taken for the repository
inputs. -/
def fallbackAfterName (org : OrganizationProfile) (md : MarineHealthData) : String :=
  "\nMarine Conservation Advocacy Division\n\nDear "
    ++ org.target_audience
    ++ ",\n\nSubject: Urgent Action Required - Marine Health Status Update for "
    ++ md.region
    ++ "\n\nOur latest marine health assessment reveals a SARgonauts Index of "
    ++ md.currentIndexStr ++ "/100 for the " ++ md.region ++ " region, indicating "
    ++ pyLower md.severity_level
    ++ " conditions.\n\nKEY ISSUES:\n"
    ++ joinLines (md.key_issues.map (fun issue => "• " ++ pyTitle issue))
    ++ "\n\nRECOMMENDED IMMEDIATE ACTIONS:\n1. "
    ++ pyTitle (org.focus_areas.getD 0 "")
    ++ " - Implement enhanced monitoring systems\n2. "
    ++ pyTitle (org.focus_areas.getD 1 "")
    ++ " - Increase resource allocation\n3. "
    ++ pyTitle (org.focus_areas.getD 2 "")
    ++ " - Establish new partnerships\n\nWe urge you to "
    ++ org.call_to_action
    ++ " within the next 30 days.\n\nSincerely yours,\nSARgonauts\n"
    ++ org.contact_info ++ "\n"

/-- `_fallback_letter` (marine-ai.py lines 167-195): a deterministic
template over the organization profile, the marine data and
`datetime.now()` (passed in as the rendered `date`): the date line and
the organization name, followed by `fallbackAfterName`. -/
def fallback_letter (org : OrganizationProfile) (md : MarineHealthData)
    (date : String) : String :=
  "\nDate: " ++ date ++ "\n" ++ org.name ++ fallbackAfterName org md

/-- `generate_letter_with_grok` (marine-ai.py lines 122-165): the whole
OpenRouter request (POST, `raise_for_status`, JSON field access) is the
oracle `api`; any exception in that `try` block is caught and the
deterministic fallback template is returned instead of raising.  The
`org_key` dict lookup is abstracted by passing the profile itself, as
both the prompt and the fallback read the same entry. -/
def generate_letter_with_grok (api : Except String String)
    (org : OrganizationProfile) (md : MarineHealthData) (date : String) : String :=
  match api with
  | .ok content => content
  | .error _ => fallback_letter org md date

/-! ## Table schemas (the CREATE TABLE statements) -/

/-- One column of a SQLite table: name, declared type, and whether NULL
is admitted. -/
structure Column where
  name : String
  sqlType : String
  nullable : Bool
deriving DecidableEq

/-- `tweets_log` (agent.py lines 40-47): only `data_summary` admits
NULL (`id` is an INTEGER PRIMARY KEY, hence a non-null rowid alias). -/
def tweets_log_schema : List Column :=
  [{ name := "id", sqlType := "INTEGER PRIMARY KEY AUTOINCREMENT", nullable := false },
   { name := "tweet_content", sqlType := "TEXT NOT NULL", nullable := false },
   { name := "post_datetime", sqlType := "TIMESTAMP NOT NULL", nullable := false },
   { name := "data_summary", sqlType := "TEXT", nullable := true }]

/-- `posts_log` (agent_fb.py lines 23-31): `event` and `coordinates`
admit NULL. -/
def posts_log_schema : List Column :=
  [{ name := "id", sqlType := "INTEGER PRIMARY KEY AUTOINCREMENT", nullable := false },
   { name := "post_content", sqlType := "TEXT NOT NULL", nullable := false },
   { name := "post_datetime", sqlType := "TIMESTAMP NOT NULL", nullable := false },
   { name := "event", sqlType := "TEXT", nullable := true },
   { name := "coordinates", sqlType := "TEXT", nullable := true }]

/-! ## Helper lemmas -/

theorem applyTweetUpdate_no (s : TweetState) : applyTweetUpdate s noTweetUpdate = s := by
  cases s; rfl

theorem applyFBUpdate_no (s : FBState) : applyFBUpdate s noFBUpdate = s := by
  cases s; rfl

theorem applySummaryUpdate_no (s : SummaryState) : applySummaryUpdate s noSummaryUpdate = s := by
  cases s; rfl

theorem post_tweet_update (s : TweetState) (client : Bool)
    (send : String → Except String Unit) : (post_tweet s client send).2.1 = noTweetUpdate := by
  unfold post_tweet
  repeat' split
  all_goals rfl

theorem post_facebook_node_update (s : FBState) (send : String → Except String Unit) :
    (post_facebook_node s send).2.1 = noFBUpdate := by
  unfold post_facebook_node
  repeat' split
  all_goals rfl

theorem post_summary_tweet_update (s : SummaryState) (client : Bool)
    (send : String → Except String Unit) :
    (post_summary_tweet s client send).2.1 = noSummaryUpdate := by
  unfold post_summary_tweet
  repeat' split
  all_goals rfl

theorem log_tweet_update (s : TweetState) (now : Nat) (db : Except String Unit) :
    (log_tweet s now db).1 = noTweetUpdate := by
  unfold log_tweet
  repeat' split
  all_goals rfl

theorem log_post_update (s : FBState) (now : Nat) (db : Except String Unit) :
    (log_post s now db).1 = noFBUpdate := by
  unfold log_post
  repeat' split
  all_goals rfl

theorem tweetSteps_afterGenerate (env : TweetEnv) (s0 : TweetState) (u1 : TweetUpdate)
    (calls : List String) :
    (tweetStepsAfterGenerate env s0 u1 calls).afterGenerate = applyTweetUpdate s0 u1 := rfl

theorem tweetSteps_afterPublish (env : TweetEnv) (s0 : TweetState) (u1 : TweetUpdate)
    (calls : List String) :
    (tweetStepsAfterGenerate env s0 u1 calls).afterPublish = applyTweetUpdate s0 u1 := by
  unfold tweetStepsAfterGenerate
  simp only [post_tweet_update, applyTweetUpdate_no]

theorem tweetSteps_finalState (env : TweetEnv) (s0 : TweetState) (u1 : TweetUpdate)
    (calls : List String) :
    (tweetStepsAfterGenerate env s0 u1 calls).finalState = applyTweetUpdate s0 u1 := by
  unfold tweetStepsAfterGenerate
  simp only [post_tweet_update, applyTweetUpdate_no, log_tweet_update]

theorem tweetSteps_appended (env : TweetEnv) (s0 : TweetState) (u1 : TweetUpdate)
    (calls : List String) :
    (tweetStepsAfterGenerate env s0 u1 calls).appended
      = (log_tweet (applyTweetUpdate s0 u1) env.now env.db).2 := by
  unfold tweetStepsAfterGenerate
  simp only [post_tweet_update, applyTweetUpdate_no]

theorem fbSteps_afterGenerate (env : FBEnv) (s0 : FBState) (u1 : FBUpdate)
    (calls : List String) :
    (fbStepsAfterGenerate env s0 u1 calls).afterGenerate = applyFBUpdate s0 u1 := rfl

theorem fbSteps_afterPublish (env : FBEnv) (s0 : FBState) (u1 : FBUpdate)
    (calls : List String) :
    (fbStepsAfterGenerate env s0 u1 calls).afterPublish = applyFBUpdate s0 u1 := by
  unfold fbStepsAfterGenerate
  simp only [post_facebook_node_update, applyFBUpdate_no]

theorem fbSteps_finalState (env : FBEnv) (s0 : FBState) (u1 : FBUpdate)
    (calls : List String) :
    (fbStepsAfterGenerate env s0 u1 calls).finalState = applyFBUpdate s0 u1 := by
  unfold fbStepsAfterGenerate
  simp only [post_facebook_node_update, applyFBUpdate_no, log_post_update]

theorem fbSteps_appended (env : FBEnv) (s0 : FBState) (u1 : FBUpdate)
    (calls : List String) :
    (fbStepsAfterGenerate env s0 u1 calls).appended
      = (log_post (applyFBUpdate s0 u1) env.now env.db).2 := by
  unfold fbStepsAfterGenerate
  simp only [post_facebook_node_update, applyFBUpdate_no]

theorem tweet_run_empty (env : TweetEnv) :
    run_ocean_tweet_workflow env "" =
      .ok (tweetStepsAfterGenerate env { data := some "", tweet := none }
            { tweet := some sentinelNoData } []) := rfl

theorem tweet_run_of_ok (env : TweetEnv) (data out : String) (hd : data ≠ "")
    (h : env.llm (oceanTweetPrompt data) = .ok out) :
    run_ocean_tweet_workflow env data =
      .ok (tweetStepsAfterGenerate env { data := some data, tweet := none }
            { tweet := some (pyStrip out) } [oceanTweetPrompt data]) := by
  unfold run_ocean_tweet_workflow generate_tweet
  simp only [if_neg hd, h]

theorem tweet_run_of_error (env : TweetEnv) (data e : String) (hd : data ≠ "")
    (h : env.llm (oceanTweetPrompt data) = .error e) :
    run_ocean_tweet_workflow env data = .error e := by
  unfold run_ocean_tweet_workflow generate_tweet
  simp only [if_neg hd, h]

theorem tweet_run_ok_shape (env : TweetEnv) (data : String) (r : TweetRunResult)
    (hr : run_ocean_tweet_workflow env data = .ok r) :
    ∃ t calls,
      r = tweetStepsAfterGenerate env { data := some data, tweet := none }
            { tweet := some t } calls ∧
      ((data = "" ∧ t = sentinelNoData ∧ calls = []) ∨
       (data ≠ "" ∧ ∃ out, env.llm (oceanTweetPrompt data) = .ok out ∧
          t = pyStrip out ∧ calls = [oceanTweetPrompt data])) := by
  by_cases hd : data = ""
  · subst hd
    rw [tweet_run_empty] at hr
    exact ⟨sentinelNoData, [], (Except.ok.inj hr).symm, Or.inl ⟨rfl, rfl, rfl⟩⟩
  · cases hl : env.llm (oceanTweetPrompt data) with
    | ok out =>
      rw [tweet_run_of_ok env data out hd hl] at hr
      refine ⟨pyStrip out, [oceanTweetPrompt data], (Except.ok.inj hr).symm,
        Or.inr ⟨hd, out, ?_, rfl, rfl⟩⟩
      rfl
    | error e =>
      rw [tweet_run_of_error env data e hd hl] at hr
      exact Except.noConfusion hr

theorem fb_run_of_ok (env : FBEnv) (ev co out : String)
    (h : env.llm (fbPrompt ev co) = .ok out) :
    run_post_update env ev co =
      .ok (fbStepsAfterGenerate env { event := some ev, coordinates := some co, post := none }
            { post := some (pyStrip out) } [fbPrompt ev co]) := by
  unfold run_post_update generate_post
  simp only [h]

theorem fb_run_of_error (env : FBEnv) (ev co e : String)
    (h : env.llm (fbPrompt ev co) = .error e) :
    run_post_update env ev co = .error e := by
  unfold run_post_update generate_post
  simp only [h]

theorem fb_run_ok_shape (env : FBEnv) (ev co : String) (q : FBRunResult)
    (hr : run_post_update env ev co = .ok q) :
    ∃ out, env.llm (fbPrompt ev co) = .ok out ∧
      q = fbStepsAfterGenerate env { event := some ev, coordinates := some co, post := none }
            { post := some (pyStrip out) } [fbPrompt ev co] := by
  cases hl : env.llm (fbPrompt ev co) with
  | ok out =>
    rw [fb_run_of_ok env ev co out hl] at hr
    exact ⟨out, rfl, (Except.ok.inj hr).symm⟩
  | error e =>
    rw [fb_run_of_error env ev co e hl] at hr
    exact Except.noConfusion hr

theorem summary_initial_state (env : SummaryEnv) :
    applySummaryUpdate { weekly_tweets := some [], summary_tweet := none }
        (retrieve_weekly_tweets env.now env.store)
      = { weekly_tweets := some (query (env.now - sevenDaysSecs) env.store),
          summary_tweet := none } := rfl

theorem summary_run_empty (env : SummaryEnv)
    (hq : query (env.now - sevenDaysSecs) env.store = []) :
    run_weekly_summary_workflow env =
      .ok (summaryStepsAfterGenerate env
            { weekly_tweets := some (query (env.now - sevenDaysSecs) env.store),
              summary_tweet := none }
            { summary_tweet := some fallbackSummary } []) := by
  unfold run_weekly_summary_workflow generate_summary_tweet
  simp only [summary_initial_state, hq]
  rfl

theorem summary_run_of_ok (env : SummaryEnv) (ws : List TweetLogRecord) (out : String)
    (hw : query (env.now - sevenDaysSecs) env.store = ws) (hne : ws ≠ [])
    (h : env.llm (summaryPrompt ws) = .ok out) :
    run_weekly_summary_workflow env =
      .ok (summaryStepsAfterGenerate env
            { weekly_tweets := some ws, summary_tweet := none }
            { summary_tweet := some (pyStrip out) } [summaryPrompt ws]) := by
  have hemp : ws.isEmpty = false := by
    cases ws with
    | nil => exact absurd rfl hne
    | cons a l => rfl
  unfold run_weekly_summary_workflow generate_summary_tweet
  simp only [summary_initial_state, hw]
  simp only [Option.getD_some, hemp, h]
  rfl

theorem summary_run_of_error (env : SummaryEnv) (ws : List TweetLogRecord) (e : String)
    (hw : query (env.now - sevenDaysSecs) env.store = ws) (hne : ws ≠ [])
    (h : env.llm (summaryPrompt ws) = .error e) :
    run_weekly_summary_workflow env = .error e := by
  have hemp : ws.isEmpty = false := by
    cases ws with
    | nil => exact absurd rfl hne
    | cons a l => rfl
  unfold run_weekly_summary_workflow generate_summary_tweet
  simp only [summary_initial_state, hw]
  simp only [Option.getD_some, hemp, h]
  rfl

theorem joinLines_decompose (l : List String) (s : String) (h : s ∈ l) :
    ∃ a b, joinLines l = a ++ s ++ b := by
  induction l with
  | nil => cases h
  | cons x xs ih =>
    cases xs with
    | nil =>
      rcases List.mem_singleton.mp h with rfl
      refine ⟨"", "", ?_⟩
      rw [String.empty_append, String.append_empty]
      rfl
    | cons y ys =>
      rcases List.mem_cons.mp h with rfl | hmem
      · refine ⟨"", "\n" ++ joinLines (y :: ys), ?_⟩
        show s ++ "\n" ++ joinLines (y :: ys) = "" ++ s ++ ("\n" ++ joinLines (y :: ys))
        rw [String.empty_append, String.append_assoc]
      · rcases ih hmem with ⟨a, b, hab⟩
        refine ⟨x ++ "\n" ++ a, b, ?_⟩
        show x ++ "\n" ++ joinLines (y :: ys) = x ++ "\n" ++ a ++ s ++ b
        rw [hab]
        simp only [String.append_assoc]

theorem summaryPrompt_decompose (ws : List TweetLogRecord) (t : TweetLogRecord)
    (h : t ∈ ws) : ∃ a b, summaryPrompt ws = a ++ t.content ++ b := by
  have hmem : ("- " ++ t.content) ∈ ws.map (fun r => "- " ++ r.content) :=
    List.mem_map_of_mem _ h
  rcases joinLines_decompose _ _ hmem with ⟨a, b, hab⟩
  refine ⟨summaryPromptHeader ++ a ++ "- ", b, ?_⟩
  unfold summaryPrompt
  rw [hab]
  simp only [String.append_assoc]

theorem mem_query (r : TweetLogRecord) (since : Nat) (store : List TweetLogRecord) :
    r ∈ query since store ↔ r ∈ store ∧ since ≤ r.timestamp := by
  unfold query
  rw [List.mem_insertionSort, List.mem_filter, decide_eq_true_iff]

theorem query_sorted (since : Nat) (store : List TweetLogRecord) :
    List.Sorted newestFirst (query since store) :=
  List.sorted_insertionSort newestFirst _

/-! ## Claim theorems -/

/-- C2 counterexample: the claim says every pipeline variant's
generation step performs zero generation-service calls on an empty
payload and returns the sentinel; but in the Facebook variant
`generate_post` performs exactly one generation-service call even when
both payload fields are empty strings, and returns the service output,
not a sentinel. -/
theorem c2_counterexample :
    (generate_post { event := some "", coordinates := some "", post := none }
        (fun _ => .ok "x")).2 = [fbPrompt "" ""] ∧
    (generate_post { event := some "", coordinates := some "", post := none }
        (fun _ => .ok "x")).2 ≠ [] ∧
    (generate_post { event := some "", coordinates := some "", post := none }
        (fun _ => .ok "x")).1 = .ok { post := some "x" } := by
  refine ⟨rfl, ?_, rfl⟩
  intro h
  exact List.noConfusion h

/-- C2 (amended): in the tweet workflow, a present-but-empty payload
short-circuits — zero generation-service calls and the fixed sentinel
error string — and a present non-empty payload performs exactly one
generation-service call; the Facebook variant's generation step never
short-circuits: it performs exactly one generation-service call for
every present payload, including empty ones. -/
theorem c2_amended_short_circuit :
    (∀ (s : TweetState) (llm : String → Except String String), s.data = some "" →
        generate_tweet s llm = (.ok { tweet := some sentinelNoData }, [])) ∧
    (∀ (s : TweetState) (d : String) (llm : String → Except String String),
        s.data = some d → d ≠ "" → (generate_tweet s llm).2 = [oceanTweetPrompt d]) ∧
    (∀ (s : FBState) (e c : String) (llm : String → Except String String),
        s.event = some e → s.coordinates = some c →
        (generate_post s llm).2 = [fbPrompt e c]) := by
  refine ⟨?_, ?_, ?_⟩
  · intro s llm hs
    unfold generate_tweet
    rw [hs]
    rfl
  · intro s d llm hs hd
    unfold generate_tweet
    rw [hs]
    simp only [if_neg hd]
    cases llm (oceanTweetPrompt d) <;> rfl
  · intro s e c llm he hc
    unfold generate_post
    rw [he, hc]
    dsimp only
    cases llm (fbPrompt e c) <;> rfl

/-- Witness for the amended C2 at concrete inputs. -/
theorem c2_amended_short_circuit_witness :
    generate_tweet { data := some "", tweet := none } (fun _ => .ok "x")
      = (.ok { tweet := some sentinelNoData }, []) ∧
    (generate_tweet { data := some "hi", tweet := none } (fun _ => .ok "x")).2
      = [oceanTweetPrompt "hi"] ∧
    (generate_post { event := some "ev", coordinates := some "co", post := none }
        (fun _ => .ok "x")).2 = [fbPrompt "ev" "co"] :=
  ⟨c2_amended_short_circuit.1 _ _ rfl,
   c2_amended_short_circuit.2.1 _ "hi" _ rfl (by decide),
   c2_amended_short_circuit.2.2 _ "ev" "co" _ rfl rfl⟩

/-- C9 counterexample: the claim says `generate_tweet` returns the
sentinel when the payload is absent; but with an absent `data` key the
prompt f-string raises KeyError (the node result is an error, not the
sentinel), with zero generation-service calls. -/
theorem c9_counterexample :
    (generate_tweet { data := none, tweet := none } (fun _ => .ok "x")).1
      = .error "KeyError: \x27data\x27" ∧
    (generate_tweet { data := none, tweet := none } (fun _ => .ok "x")).1
      ≠ .ok { tweet := some sentinelNoData } ∧
    (generate_tweet { data := none, tweet := none } (fun _ => .ok "x")).2 = [] := by
  refine ⟨rfl, ?_, rfl⟩
  intro h
  exact Except.noConfusion h

/-- C9 (amended): the empty-payload check is Python truthiness of a
present `data` value — `generate_tweet` returns the sentinel exactly
when `data` is the present empty string; when the key is absent the
prompt construction raises KeyError (zero service calls, no sentinel);
every other present payload, including whitespace-only ones such as
a single space, is truthy: exactly one generation-service call is made
and the payload is embedded in the prompt. -/
theorem c9_amended_truthiness :
    (∀ (s : TweetState) (llm : String → Except String String), s.data = some "" →
        generate_tweet s llm = (.ok { tweet := some sentinelNoData }, [])) ∧
    (∀ (s : TweetState) (llm : String → Except String String), s.data = none →
        generate_tweet s llm = (.error "KeyError: \x27data\x27", [])) ∧
    (∀ (s : TweetState) (d : String) (llm : String → Except String String),
        s.data = some d → d ≠ "" →
        (generate_tweet s llm).2 = [oceanTweetPrompt d] ∧
        ∃ a b, oceanTweetPrompt d = a ++ d ++ b) := by
  refine ⟨?_, ?_, ?_⟩
  · intro s llm hs
    unfold generate_tweet
    rw [hs]
    rfl
  · intro s llm hs
    unfold generate_tweet
    rw [hs]
  · intro s d llm hs hd
    constructor
    · unfold generate_tweet
      rw [hs]
      simp only [if_neg hd]
      cases llm (oceanTweetPrompt d) <;> rfl
    · exact ⟨oceanTweetPromptHeader, "", by rw [String.append_empty]; rfl⟩

/-- Witness for the amended C9, with the whitespace-only payload of the
claim as the truthy instance. -/
theorem c9_amended_truthiness_witness :
    generate_tweet { data := some "", tweet := none } (fun _ => .ok "x")
      = (.ok { tweet := some sentinelNoData }, []) ∧
    generate_tweet { data := none, tweet := none } (fun _ => .ok "x")
      = (.error "KeyError: \x27data\x27", []) ∧
    ((generate_tweet { data := some " ", tweet := none } (fun _ => .ok "x")).2
        = [oceanTweetPrompt " "] ∧
      ∃ a b, oceanTweetPrompt " " = a ++ " " ++ b) :=
  ⟨c9_amended_truthiness.1 _ _ rfl,
   c9_amended_truthiness.2.1 _ _ rfl,
   c9_amended_truthiness.2.2 _ " " _ rfl (by decide)⟩

/-- C3: publish never raises — for every content value and client
state, the publishers return an outcome instead of propagating the
delivery exception; absent client or absent/empty content yields the
Skipped branch with zero delivery attempts; otherwise exactly one
delivery attempt is made (no internal retry), Delivered on success and
Failed on any exception of the attempt. -/
theorem c3_publish_never_raises :
    (∀ (s : TweetState) (client : Bool) (send : String → Except String Unit),
        (post_tweet s client send).2.2.length ≤ 1 ∧
        ((client = false ∨ truthy s.tweet = false) →
          post_tweet s client send = (.Skipped, noTweetUpdate, [])) ∧
        (∀ t, s.tweet = some t → t ≠ "" → client = true →
          (post_tweet s client send).2.2 = [t] ∧
          (send t = .ok () → (post_tweet s client send).1 = .Delivered) ∧
          (∀ e, send t = .error e → (post_tweet s client send).1 = .Failed e))) ∧
    (∀ (s : FBState) (send : String → Except String Unit),
        (post_facebook_node s send).2.2.length ≤ 1 ∧
        (truthy s.post = false →
          post_facebook_node s send = (.Skipped, noFBUpdate, [])) ∧
        (∀ p, s.post = some p → p ≠ "" →
          (post_facebook_node s send).2.2 = [p] ∧
          (send p = .ok () → (post_facebook_node s send).1 = .Delivered) ∧
          (∀ e, send p = .error e → (post_facebook_node s send).1 = .Failed e))) := by
  constructor
  · intro s client send
    refine ⟨?_, ?_, ?_⟩
    · unfold post_tweet
      repeat' split
      all_goals simp
    · intro h
      unfold post_tweet
      cases hs : s.tweet with
      | none => rfl
      | some t =>
        have hc : (client && !(t == "")) = false := by
          rcases h with h | h
          · simp [h]
          · rw [hs] at h
            simp only [truthy, Bool.not_eq_false] at h
            simp [h]
        simp [hc]
    · intro t hs ht hclient
      have hc : (client && !(t == "")) = true := by
        simp [hclient, ht]
      refine ⟨?_, ?_, ?_⟩
      · unfold post_tweet
        rw [hs]
        simp only [hc, if_true]
        cases send t <;> rfl
      · intro hsend
        unfold post_tweet
        rw [hs]
        simp only [hc, if_true, hsend]
      · intro e hsend
        unfold post_tweet
        rw [hs]
        simp only [hc, if_true, hsend]
  · intro s send
    refine ⟨?_, ?_, ?_⟩
    · unfold post_facebook_node
      repeat' split
      all_goals simp
    · intro h
      unfold post_facebook_node
      cases hs : s.post with
      | none => rfl
      | some p =>
        have hc : (!(p == "")) = false := by
          rw [hs] at h
          simp only [truthy, Bool.not_eq_false] at h
          simp [h]
        simp [hc]
    · intro p hs hp
      have hc : (!(p == "")) = true := by
        simp [hp]
      refine ⟨?_, ?_, ?_⟩
      · unfold post_facebook_node
        rw [hs]
        simp only [hc, if_true]
        cases send p <;> rfl
      · intro hsend
        unfold post_facebook_node
        rw [hs]
        simp only [hc, if_true, hsend]
      · intro e hsend
        unfold post_facebook_node
        rw [hs]
        simp only [hc, if_true, hsend]

/-- Witness for C3: a skipped publish (no tweet yet), a failed attempt
converted to an outcome, and one delivered Facebook attempt. -/
theorem c3_publish_never_raises_witness :
    post_tweet { data := some "d", tweet := none } true (fun _ => .ok ())
      = (.Skipped, noTweetUpdate, []) ∧
    (post_tweet { data := some "d", tweet := some "hello" } true
        (fun _ => .error "boom")).1 = .Failed "boom" ∧
    (post_tweet { data := some "d", tweet := some "hello" } true
        (fun _ => .error "boom")).2.2 = ["hello"] ∧
    (post_facebook_node { event := none, coordinates := none, post := some "p" }
        (fun _ => .ok ())).1 = .Delivered :=
  ⟨(c3_publish_never_raises.1 _ true _).2.1 (Or.inr rfl),
   ((c3_publish_never_raises.1 _ true _).2.2 "hello" rfl (by decide) rfl).2.2 "boom" rfl,
   ((c3_publish_never_raises.1 _ true _).2.2 "hello" rfl (by decide) rfl).1,
   ((c3_publish_never_raises.2 _ _).2.2 "p" rfl (by decide)).2.1 rfl⟩

/-- C4: the aggregator's generation step returns the fixed fallback
reflective message with zero generation-service calls when the
retrieved record list is empty (or the key is absent, where the code
defaults to the empty list), and with a non-empty record list it
performs exactly one generation-service call whose prompt contains the
content of every retrieved record. -/
theorem c4_aggregator_generation :
    (∀ (s : SummaryState) (llm : String → Except String String),
        (s.weekly_tweets = some [] ∨ s.weekly_tweets = none) →
        generate_summary_tweet s llm = (.ok { summary_tweet := some fallbackSummary }, [])) ∧
    (∀ (s : SummaryState) (ws : List TweetLogRecord) (llm : String → Except String String),
        s.weekly_tweets = some ws → ws ≠ [] →
        (generate_summary_tweet s llm).2 = [summaryPrompt ws] ∧
        (∀ t ∈ ws, ∃ a b, summaryPrompt ws = a ++ t.content ++ b)) := by
  constructor
  · intro s llm h
    unfold generate_summary_tweet
    rcases h with h | h <;> rw [h] <;> rfl
  · intro s ws llm hs hne
    have hemp : ws.isEmpty = false := by
      cases ws with
      | nil => exact absurd rfl hne
      | cons a l => rfl
    constructor
    · unfold generate_summary_tweet
      rw [hs]
      simp only [Option.getD_some, hemp]
      cases llm (summaryPrompt ws) <;> rfl
    · intro t ht
      exact summaryPrompt_decompose ws t ht

/-- Witness for C4: the empty store gives the fallback with zero
calls; a one-record store gives one call whose prompt contains the
record content. -/
theorem c4_aggregator_generation_witness :
    generate_summary_tweet { weekly_tweets := some [], summary_tweet := none }
        (fun _ => .ok "x") = (.ok { summary_tweet := some fallbackSummary }, []) ∧
    (generate_summary_tweet
        { weekly_tweets := some [{ content := "tweetA", timestamp := 5, dataSummary := none }],
          summary_tweet := none } (fun _ => .ok "x")).2
      = [summaryPrompt [{ content := "tweetA", timestamp := 5, dataSummary := none }]] ∧
    ∃ a b, summaryPrompt [{ content := "tweetA", timestamp := 5, dataSummary := none }]
      = a ++ "tweetA" ++ b :=
  ⟨c4_aggregator_generation.1 _ _ (Or.inl rfl),
   (c4_aggregator_generation.2
     { weekly_tweets := some [{ content := "tweetA", timestamp := 5, dataSummary := none }],
       summary_tweet := none }
     [{ content := "tweetA", timestamp := 5, dataSummary := none }] _ rfl (by decide)).1,
   (c4_aggregator_generation.2
     { weekly_tweets := some [{ content := "tweetA", timestamp := 5, dataSummary := none }],
       summary_tweet := none }
     [{ content := "tweetA", timestamp := 5, dataSummary := none }] (fun _ => .ok "x") rfl
     (by decide)).2
     { content := "tweetA", timestamp := 5, dataSummary := none }
     (List.mem_singleton.mpr rfl)⟩

/-- C10: every row appended by the tweet logging step has a non-null
context summary — an absent `data` key is replaced by the fixed string
`No data provided` — even though the `data_summary` column is declared
nullable; the Facebook logging step instead writes the possibly-null
`event` and `coordinates` values directly. -/
theorem c10_context_summary :
    (∀ (s : TweetState) (now : Nat) (db : Except String Unit) (r : TweetLogRecord),
        r ∈ (log_tweet s now db).2 → r.dataSummary ≠ none) ∧
    (∀ (s : TweetState) (t : String) (now : Nat), s.data = none → s.tweet = some t →
        t ≠ "" →
        (log_tweet s now (.ok ())).2
          = [{ content := t, timestamp := now, dataSummary := some "No data provided" }]) ∧
    ((tweets_log_schema.find? (fun c => c.name == "data_summary")).map Column.nullable
        = some true) ∧
    (∀ (s : FBState) (p : String) (now : Nat), s.post = some p → p ≠ "" →
        (log_post s now (.ok ())).2
          = [{ content := p, timestamp := now, event := s.event,
               coordinates := s.coordinates }]) := by
  refine ⟨?_, ?_, rfl, ?_⟩
  · intro s now db r hr
    rcases s with ⟨d, tw⟩
    cases tw with
    | none => simp [log_tweet] at hr
    | some t =>
      by_cases ht : t = ""
      · simp [log_tweet, ht] at hr
      · cases db with
        | ok u =>
          simp [log_tweet, ht] at hr
          simp [hr]
        | error e => simp [log_tweet, ht] at hr
  · intro s t now hd ht htne
    unfold log_tweet
    rw [ht]
    simp only [if_neg htne, hd]
    rfl
  · intro s p now hp hpne
    unfold log_post
    rw [hp]
    simp only [if_neg hpne]

/-- Witness for C10: a run state with an absent data key logs the fixed
summary; a Facebook state with absent event and coordinates logs null
values for both. -/
theorem c10_context_summary_witness :
    (log_tweet { data := none, tweet := some "tw" } 7 (.ok ())).2
      = [{ content := "tw", timestamp := 7, dataSummary := some "No data provided" }] ∧
    (log_post { event := none, coordinates := none, post := some "p" } 7 (.ok ())).2
      = [{ content := "p", timestamp := 7, event := none, coordinates := none }] ∧
    ({ content := "tw", timestamp := 7,
       dataSummary := some "No data provided" } : TweetLogRecord).dataSummary ≠ none :=
  ⟨c10_context_summary.2.1 { data := none, tweet := some "tw" } "tw" 7 rfl rfl (by decide),
   c10_context_summary.2.2.2 { event := none, coordinates := none, post := some "p" }
     "p" 7 rfl (by decide),
   c10_context_summary.1 { data := none, tweet := some "tw" } 7 (.ok ()) _
     (by rw [(c10_context_summary.2.1 { data := none, tweet := some "tw" } "tw" 7 rfl rfl
          (by decide) : _)]; exact List.mem_singleton.mpr rfl)⟩

/-- C8: a generation-service exception is not caught in the tweet
workflow's generation step — it propagates out of the node and aborts
the run — whereas the letter generator catches any exception of its
service call and returns the deterministic fallback letter built from
the organization profile and the marine data; every profile in the
organizations table has enough focus areas for the fallback template. -/
theorem c8_generation_failure_asymmetry :
    (∀ (s : TweetState) (d : String) (llm : String → Except String String) (e : String),
        s.data = some d → d ≠ "" → llm (oceanTweetPrompt d) = .error e →
        generate_tweet s llm = (.error e, [oceanTweetPrompt d])) ∧
    (∀ (env : TweetEnv) (data e : String), data ≠ "" →
        env.llm (oceanTweetPrompt data) = .error e →
        run_ocean_tweet_workflow env data = .error e) ∧
    (∀ (org : OrganizationProfile) (md : MarineHealthData) (date e : String),
        generate_letter_with_grok (.error e) org md date = fallback_letter org md date) ∧
    (∀ (org : OrganizationProfile) (md : MarineHealthData) (date : String),
        ∃ a b, fallback_letter org md date = a ++ org.name ++ b) ∧
    (∀ kv ∈ organizations, 3 ≤ kv.2.focus_areas.length) := by
  refine ⟨?_, ?_, ?_, ?_, ?_⟩
  · intro s d llm e hs hd hl
    unfold generate_tweet
    rw [hs]
    simp only [if_neg hd, hl]
  · intro env data e hd hl
    exact tweet_run_of_error env data e hd hl
  · intro org md date e
    rfl
  · intro org md date
    refine ⟨"\nDate: " ++ date ++ "\n", fallbackAfterName org md, ?_⟩
    unfold fallback_letter
    simp only [String.append_assoc]
  · intro kv hkv
    simp only [organizations, List.mem_cons, List.not_mem_nil, or_false] at hkv
    rcases hkv with rfl | rfl | rfl <;> decide

/-- Witness for C8 at concrete inputs: the service error aborts the
concrete tweet run, the concrete letter call falls back, and the first
profile has at least three focus areas. -/
theorem c8_generation_failure_asymmetry_witness :
    run_ocean_tweet_workflow
        { llm := fun _ => .error "boom", client := true, send := fun _ => .ok (),
          db := .ok (), now := 9 } "payload" = .error "boom" ∧
    generate_letter_with_grok (.error "boom")
        { name := "Ocean Policy Institute",
          target_audience := "Government Officials, Policy Makers, Environmental Agencies",
          tone := "formal, evidence-based, diplomatic",
          focus_areas := ["policy reform", "international cooperation",
                          "regulatory frameworks", "funding allocation"],
          call_to_action := "implement stronger marine protection policies and increase funding",
          contact_info := "dheunsac@gmail.com" }
        { currentIndexStr := "78.4", region := "Bay of Bengal",
          coordinates := "21.0000° N, 90.0000° E", severity_level := "Good",
          urgency := "MAINTAIN CURRENT EFFORTS", recent_changes := "none",
          key_issues := ["fish population decline in commercial zones"] }
        "October 12, 2025"
      = fallback_letter
        { name := "Ocean Policy Institute",
          target_audience := "Government Officials, Policy Makers, Environmental Agencies",
          tone := "formal, evidence-based, diplomatic",
          focus_areas := ["policy reform", "international cooperation",
                          "regulatory frameworks", "funding allocation"],
          call_to_action := "implement stronger marine protection policies and increase funding",
          contact_info := "dheunsac@gmail.com" }
        { currentIndexStr := "78.4", region := "Bay of Bengal",
          coordinates := "21.0000° N, 90.0000° E", severity_level := "Good",
          urgency := "MAINTAIN CURRENT EFFORTS", recent_changes := "none",
          key_issues := ["fish population decline in commercial zones"] }
        "October 12, 2025" ∧
    3 ≤ (("policy_makers",
        ({ name := "Ocean Policy Institute",
           target_audience := "Government Officials, Policy Makers, Environmental Agencies",
           tone := "formal, evidence-based, diplomatic",
           focus_areas := ["policy reform", "international cooperation",
                           "regulatory frameworks", "funding allocation"],
           call_to_action := "implement stronger marine protection policies and increase funding",
           contact_info := "dheunsac@gmail.com" } : OrganizationProfile)) :
        String × OrganizationProfile).2.focus_areas.length :=
  ⟨c8_generation_failure_asymmetry.2.1 _ "payload" "boom" (by decide) rfl,
   c8_generation_failure_asymmetry.2.2.1 _ _ _ "boom",
   c8_generation_failure_asymmetry.2.2.2.2 _ (by simp [organizations])⟩

/-- C7: the publish step never mutates the run state (its state update
is empty, so applying it is the identity), and in every completed run
the generated content set by the generation step is unchanged by the
publish and logging steps. -/
theorem c7_publish_frame :
    (∀ (s : TweetState) (client : Bool) (send : String → Except String Unit),
        applyTweetUpdate s (post_tweet s client send).2.1 = s) ∧
    (∀ (s : FBState) (send : String → Except String Unit),
        applyFBUpdate s (post_facebook_node s send).2.1 = s) ∧
    (∀ (env : TweetEnv) (data : String) (r : TweetRunResult),
        run_ocean_tweet_workflow env data = .ok r →
        r.afterPublish = r.afterGenerate ∧ r.finalState.tweet = r.afterGenerate.tweet) ∧
    (∀ (env : FBEnv) (ev co : String) (q : FBRunResult),
        run_post_update env ev co = .ok q →
        q.afterPublish = q.afterGenerate ∧ q.finalState.post = q.afterGenerate.post) := by
  refine ⟨?_, ?_, ?_, ?_⟩
  · intro s client send
    rw [post_tweet_update, applyTweetUpdate_no]
  · intro s send
    rw [post_facebook_node_update, applyFBUpdate_no]
  · intro env data r hr
    rcases tweet_run_ok_shape env data r hr with ⟨t, calls, rfl, -⟩
    rw [tweetSteps_afterPublish, tweetSteps_afterGenerate, tweetSteps_finalState]
    exact ⟨rfl, rfl⟩
  · intro env ev co q hr
    rcases fb_run_ok_shape env ev co q hr with ⟨out, -, rfl⟩
    rw [fbSteps_afterPublish, fbSteps_afterGenerate, fbSteps_finalState]
    exact ⟨rfl, rfl⟩

/-- Witness for C7 on a concrete run. -/
theorem c7_publish_frame_witness :
    applyTweetUpdate { data := some "d", tweet := some "t" }
        (post_tweet { data := some "d", tweet := some "t" } true
          (fun _ => .error "boom")).2.1
      = { data := some "d", tweet := some "t" } ∧
    (tweetStepsAfterGenerate
        { llm := fun _ => .ok "tweet text", client := true, send := fun _ => .ok (),
          db := .ok (), now := 3 }
        { data := some "payload", tweet := none }
        { tweet := some (pyStrip "tweet text") } [oceanTweetPrompt "payload"]).afterPublish
      = (tweetStepsAfterGenerate
        { llm := fun _ => .ok "tweet text", client := true, send := fun _ => .ok (),
          db := .ok (), now := 3 }
        { data := some "payload", tweet := none }
        { tweet := some (pyStrip "tweet text") } [oceanTweetPrompt "payload"]).afterGenerate :=
  ⟨c7_publish_frame.1 _ true _,
   (c7_publish_frame.2.2.1
     { llm := fun _ => .ok "tweet text", client := true, send := fun _ => .ok (),
       db := .ok (), now := 3 } "payload" _ rfl).1⟩

/-- C5: for every store contents and cutoff, the Log Store query
returns exactly the records with timestamp at or after the cutoff,
ordered newest-first; a record appended in-process is visible to an
immediately following query whose cutoff is at or before its
timestamp; and the aggregator's retrieval step uses the cutoff
now minus 7 days. -/
theorem c5_query_spec :
    ∀ (store : List TweetLogRecord) (since : Nat),
      (∀ r, r ∈ query since store ↔ r ∈ store ∧ since ≤ r.timestamp) ∧
      List.Sorted newestFirst (query since store) ∧
      (∀ (c : String) (ds : Option String) (now : Nat), since ≤ now →
        ({ content := c, timestamp := now, dataSummary := ds } : TweetLogRecord)
          ∈ query since (appendRecord store c ds now)) ∧
      (∀ now, retrieve_weekly_tweets now store
          = { weekly_tweets := some (query (now - 7 * 86400) store) }) := by
  intro store since
  refine ⟨fun r => mem_query r since store, query_sorted since store, ?_, ?_⟩
  · intro c ds now hnow
    refine (mem_query _ since _).mpr ⟨?_, hnow⟩
    unfold appendRecord
    exact List.mem_append_right _ (List.mem_singleton.mpr rfl)
  · intro now
    rfl

/-- Witness for C5: the just-appended record is returned by a query
whose cutoff precedes its timestamp. -/
theorem c5_query_spec_witness :
    ({ content := "c", timestamp := 5, dataSummary := none } : TweetLogRecord)
      ∈ query 3 (appendRecord [{ content := "old", timestamp := 0, dataSummary := none }]
          "c" none 5) :=
  (c5_query_spec [{ content := "old", timestamp := 0, dataSummary := none }] 3).2.2.1
    "c" none 5 (by decide)

theorem log_tweet_appended_iff (s : TweetState) (now : Nat) :
    ((log_tweet s now (.ok ())).2 ≠ []) ↔ truthy s.tweet = true := by
  rcases s with ⟨d, tw⟩
  cases tw with
  | none => simp [log_tweet, truthy]
  | some t =>
    by_cases ht : t = ""
    · subst ht
      simp [log_tweet, truthy]
    · simp [log_tweet, truthy, ht]

theorem log_post_appended_iff (s : FBState) (now : Nat) :
    ((log_post s now (.ok ())).2 ≠ []) ↔ truthy s.post = true := by
  rcases s with ⟨e, c, po⟩
  cases po with
  | none => simp [log_post, truthy]
  | some p =>
    by_cases hp : p = ""
    · subst hp
      simp [log_post, truthy]
    · simp [log_post, truthy, hp]

/-- C1: in every pipeline run, a Log Store append occurs iff the
generated content is non-empty at the logging step (given the store
write itself succeeds), and the appended rows are independent of the
publish outcome: two runs over the same payload whose environments
agree on the generation service, the store and the clock — but may
differ arbitrarily in channel client and delivery outcome — append
exactly the same rows. -/
theorem c1_log_append_iff_content :
    (∀ (env env2 : TweetEnv) (data : String) (r r2 : TweetRunResult),
        run_ocean_tweet_workflow env data = .ok r →
        run_ocean_tweet_workflow env2 data = .ok r2 →
        env.llm = env2.llm → env.db = env2.db → env.now = env2.now →
        r.appended = r2.appended ∧
        (env.db = .ok () → ((r.appended ≠ []) ↔ truthy r.afterPublish.tweet = true))) ∧
    (∀ (env env2 : FBEnv) (ev co : String) (q q2 : FBRunResult),
        run_post_update env ev co = .ok q →
        run_post_update env2 ev co = .ok q2 →
        env.llm = env2.llm → env.db = env2.db → env.now = env2.now →
        q.appended = q2.appended ∧
        (env.db = .ok () → ((q.appended ≠ []) ↔ truthy q.afterPublish.post = true))) := by
  constructor
  · intro env env2 data r r2 hr hr2 hllm hdb hnow
    rcases tweet_run_ok_shape env data r hr with ⟨t, calls, rfl, hcase⟩
    rcases tweet_run_ok_shape env2 data r2 hr2 with ⟨t2, calls2, rfl, hcase2⟩
    have ht : t2 = t := by
      rcases hcase with ⟨hd, ht1, -⟩ | ⟨hd, out, hl, ht1, -⟩
      · rcases hcase2 with ⟨hd2, ht2, -⟩ | ⟨hd2, out2, hl2, ht2, -⟩
        · rw [ht1, ht2]
        · exact absurd hd hd2
      · rcases hcase2 with ⟨hd2, ht2, -⟩ | ⟨hd2, out2, hl2, ht2, -⟩
        · exact absurd hd2 hd
        · rw [hllm] at hl
          have hout : out = out2 := Except.ok.inj (hl.symm.trans hl2)
          rw [ht1, ht2, hout]
    subst ht
    constructor
    · rw [tweetSteps_appended, tweetSteps_appended, hdb, hnow]
    · intro hdbok
      rw [tweetSteps_appended, tweetSteps_afterPublish, hdbok]
      exact log_tweet_appended_iff _ env.now
  · intro env env2 ev co q q2 hr hr2 hllm hdb hnow
    rcases fb_run_ok_shape env ev co q hr with ⟨out, hl, rfl⟩
    rcases fb_run_ok_shape env2 ev co q2 hr2 with ⟨out2, hl2, rfl⟩
    have hout : out2 = out := by
      rw [hllm] at hl
      exact Except.ok.inj (hl2.symm.trans hl)
    subst hout
    constructor
    · rw [fbSteps_appended, fbSteps_appended, hdb, hnow]
    · intro hdbok
      rw [fbSteps_appended, fbSteps_afterPublish, hdbok]
      exact log_post_appended_iff _ env.now

/-- Witness for C1: two concrete runs that differ only in client
presence and delivery outcome append the same rows, and those rows are
non-empty exactly because the generated content is non-empty. -/
theorem c1_log_append_iff_content_witness :
    (tweetStepsAfterGenerate
        { llm := fun _ => .ok "out", client := true, send := fun _ => .ok (),
          db := .ok (), now := 3 }
        { data := some "payload", tweet := none }
        { tweet := some (pyStrip "out") } [oceanTweetPrompt "payload"]).appended
      = (tweetStepsAfterGenerate
        { llm := fun _ => .ok "out", client := false, send := fun _ => .error "boom",
          db := .ok (), now := 3 }
        { data := some "payload", tweet := none }
        { tweet := some (pyStrip "out") } [oceanTweetPrompt "payload"]).appended ∧
    (((tweetStepsAfterGenerate
        { llm := fun _ => .ok "out", client := true, send := fun _ => .ok (),
          db := .ok (), now := 3 }
        { data := some "payload", tweet := none }
        { tweet := some (pyStrip "out") } [oceanTweetPrompt "payload"]).appended ≠ []) ↔
      truthy (tweetStepsAfterGenerate
        { llm := fun _ => .ok "out", client := true, send := fun _ => .ok (),
          db := .ok (), now := 3 }
        { data := some "payload", tweet := none }
        { tweet := some (pyStrip "out") } [oceanTweetPrompt "payload"]).afterPublish.tweet
        = true) :=
  ⟨(c1_log_append_iff_content.1
      { llm := fun _ => .ok "out", client := true, send := fun _ => .ok (),
        db := .ok (), now := 3 }
      { llm := fun _ => .ok "out", client := false, send := fun _ => .error "boom",
        db := .ok (), now := 3 }
      "payload" _ _ rfl rfl rfl rfl rfl).1,
   (c1_log_append_iff_content.1
      { llm := fun _ => .ok "out", client := true, send := fun _ => .ok (),
        db := .ok (), now := 3 }
      { llm := fun _ => .ok "out", client := false, send := fun _ => .error "boom",
        db := .ok (), now := 3 }
      "payload" _ _ rfl rfl rfl rfl rfl).2 rfl⟩

/-- C6: each pipeline graph is strictly linear — following the unique
outgoing edges from START visits generate, publish, log (retrieve,
generate, publish for the aggregator) exactly once each with no cycles
or branching — and whenever the generation service succeeds, the run
reaches its terminal step and returns a final state for every delivery
and store outcome, because publish and log failures are caught inside
their steps and degrade to the empty state update. -/
theorem c6_linear_pipeline :
    pathFrom oceanGraphEdges 10 "__start__"
      = ["generate_tweet", "post_tweet", "log_tweet"] ∧
    pathFrom fbGraphEdges 10 "__start__"
      = ["generate_post", "post_facebook", "log_post"] ∧
    pathFrom summaryGraphEdges 10 "__start__"
      = ["retrieve_weekly_tweets", "generate_summary_tweet", "post_summary_tweet"] ∧
    (oceanGraphEdges.map Prod.fst).Nodup ∧
    (fbGraphEdges.map Prod.fst).Nodup ∧
    (summaryGraphEdges.map Prod.fst).Nodup ∧
    (∀ (env : TweetEnv) (data : String), (∀ p, ∃ o, env.llm p = .ok o) →
      ∃ r, run_ocean_tweet_workflow env data = .ok r ∧
        r.trace = ["generate_tweet", "post_tweet", "log_tweet"]) ∧
    (∀ (env : FBEnv) (ev co : String), (∀ p, ∃ o, env.llm p = .ok o) →
      ∃ q, run_post_update env ev co = .ok q ∧
        q.trace = ["generate_post", "post_facebook", "log_post"]) ∧
    (∀ (env : SummaryEnv), (∀ p, ∃ o, env.llm p = .ok o) →
      ∃ w, run_weekly_summary_workflow env = .ok w ∧
        w.trace = ["retrieve_weekly_tweets", "generate_summary_tweet",
                   "post_summary_tweet"]) ∧
    (∀ (s : TweetState) (client : Bool) (send : String → Except String Unit),
        (post_tweet s client send).2.1 = noTweetUpdate) ∧
    (∀ (s : TweetState) (now : Nat) (db : Except String Unit),
        (log_tweet s now db).1 = noTweetUpdate) := by
  refine ⟨by decide, by decide, by decide, by decide, by decide, by decide,
    ?_, ?_, ?_, post_tweet_update, log_tweet_update⟩
  · intro env data h
    by_cases hd : data = ""
    · subst hd
      exact ⟨_, tweet_run_empty env, rfl⟩
    · obtain ⟨o, ho⟩ := h (oceanTweetPrompt data)
      exact ⟨_, tweet_run_of_ok env data o hd ho, rfl⟩
  · intro env ev co h
    obtain ⟨o, ho⟩ := h (fbPrompt ev co)
    exact ⟨_, fb_run_of_ok env ev co o ho, rfl⟩
  · intro env h
    cases hq : query (env.now - sevenDaysSecs) env.store with
    | nil => exact ⟨_, summary_run_empty env hq, rfl⟩
    | cons a l =>
      obtain ⟨o, ho⟩ := h (summaryPrompt (a :: l))
      exact ⟨_, summary_run_of_ok env (a :: l) o hq (List.cons_ne_nil a l) ho, rfl⟩

/-- Witness for C6: all three pipelines reach their terminal step with
the expected node order under a concrete always-succeeding generation
service, a failing delivery call and a failing store. -/
theorem c6_linear_pipeline_witness :
    (∃ r, run_ocean_tweet_workflow
        { llm := fun _ => .ok "x", client := true, send := fun _ => .error "down",
          db := .error "locked", now := 3 } "d" = .ok r ∧
      r.trace = ["generate_tweet", "post_tweet", "log_tweet"]) ∧
    (∃ q, run_post_update
        { llm := fun _ => .ok "x", send := fun _ => .error "down",
          db := .error "locked", now := 3 } "ev" "co" = .ok q ∧
      q.trace = ["generate_post", "post_facebook", "log_post"]) ∧
    (∃ w, run_weekly_summary_workflow
        { llm := fun _ => .ok "x", client := false, send := fun _ => .error "down",
          now := 3, store := [] } = .ok w ∧
      w.trace = ["retrieve_weekly_tweets", "generate_summary_tweet",
                 "post_summary_tweet"]) :=
  ⟨c6_linear_pipeline.2.2.2.2.2.2.1
      { llm := fun _ => .ok "x", client := true, send := fun _ => .error "down",
        db := .error "locked", now := 3 } "d" (fun _ => ⟨"x", rfl⟩),
   c6_linear_pipeline.2.2.2.2.2.2.2.1
      { llm := fun _ => .ok "x", send := fun _ => .error "down",
        db := .error "locked", now := 3 } "ev" "co" (fun _ => ⟨"x", rfl⟩),
   c6_linear_pipeline.2.2.2.2.2.2.2.2.1
      { llm := fun _ => .ok "x", client := false, send := fun _ => .error "down",
        now := 3, store := [] } (fun _ => ⟨"x", rfl⟩)⟩
